import Mathlib

/-!
Verification of the provider orchestration / fallback engine and the
background task queue of the manus-platform backend.

Shallow embedding of `src/services/provider_manager.py` and
`src/services/task_queue.py` (plus the model-defaulting code of the
concrete provider subclasses in `src/providers/`).

Modelling conventions:
* `time.time()` / `datetime.now()` values are modelled as `Nat` timestamps
  supplied by the caller (`now` parameters).  Only order comparisons on
  times occur in the source, so any linearly ordered carrier is faithful;
  note that for `Nat` truncated subtraction `now - last > 60` holds iff
  `now > last + 60`, exactly as for the real-valued subtraction in Python.
* The opaque external completion capability (`_generate_completion_impl`
  minus its model-defaulting prologue) is a parameter
  `impl : Option String → Except String Completion`; the completion payload
  itself is never inspected by the core, so `Completion := String` stands
  for the response dictionary.
* Python exceptions become `Except`; the single `ProviderError` class is
  split into an inductive `PError` whose constructors correspond one-to-one
  to the distinct `raise` sites, and `PError.message` renders exactly the
  message string each site builds.
* Python truthiness: `if not self.rate_limit` is true when `rate_limit`
  is `None` **or** `0`; this is modelled explicitly below.
* `random.choice` (the "random" fallback strategy) is modelled by an
  oracle `rnd : Nat → Nat` giving, per loop iteration, an index into the
  candidate list.
-/

/-- Opaque completion payload (the response dict); never inspected by the core. -/
abbrev Completion := String

/-- The distinct `raise ProviderError(...)` sites of `provider_manager.py`,
one constructor per site. -/
inductive PError where
  /-- `Provider.generate_completion`: `f"Provider {self.name} is disabled"` -/
  | disabled (name : String)
  /-- `Provider.generate_completion`: `f"Provider {self.name} is rate limited"` -/
  | rateLimited (name : String)
  /-- `Provider.generate_completion`: `f"Provider {self.name} error: {str(e)}"` -/
  | wrapped (name : String) (cause : String)
  /-- `ProviderManager.generate_completion`: `f"All providers failed after {n} attempts"`
  optionally followed by `f": {str(last_error)}"` -/
  | allFailed (attempts : Nat) (last : Option String)
deriving Repr, DecidableEq

/-- The exact message string each `raise` site builds (`str(e)` on the
exception yields this string). -/
def PError.message : PError → String
  | .disabled name => "Provider " ++ name ++ " is disabled"
  | .rateLimited name => "Provider " ++ name ++ " is rate limited"
  | .wrapped name cause => "Provider " ++ name ++ " error: " ++ cause
  | .allFailed n last =>
      "All providers failed after " ++ toString n ++ " attempts"
        ++ (match last with | some s => ": " ++ s | none => "")

/-- Runtime state of one `Provider` (`provider_manager.py`, class `Provider`).
Fields are the constructor-initialised attributes the core reads or writes;
`api_key`/`base_url`/`client` never influence the core logic and are omitted. -/
structure Provider where
  name : String
  models : List String
  priority : Int
  enabled : Bool
  /-- `rate_limit: Optional[int]`; `none` means no limit configured. -/
  rate_limit : Option Nat
  last_request_time : Nat := 0
  request_count : Nat := 0
  error_count : Nat := 0
deriving Repr, DecidableEq

namespace Provider

/-- `Provider._check_rate_limit` — returns (limited?, updated provider).
Mirrors the source line by line; the state component records the
counter/window reset the method performs in place. -/
def checkRateLimit (p : Provider) (now : Nat) : Bool × Provider :=
  match p.rate_limit with
  | none => (false, p)                       -- `if not self.rate_limit: return False`
  | some limit =>
    if limit = 0 then (false, p)             -- Python truthiness: rate_limit == 0 is falsy
    else if now - p.last_request_time > 60 then
      (false, { p with request_count := 0, last_request_time := now })
    else if p.request_count ≥ limit then (true, p)
    else (false, p)

/-- `Provider._update_request_stats`. -/
def updateRequestStats (p : Provider) (now : Nat) : Provider :=
  { p with request_count := p.request_count + 1, last_request_time := now }

/-- The model-defaulting step of `Provider.generate_completion`:
`if not model and self.models: model = self.models[0]`.
(`self.models` is never mutated, so reading it before or after the rate
check is equivalent.) -/
def effectiveModel (p : Provider) (model : Option String) : Option String :=
  match model, p.models with
  | none, m :: _ => some m
  | _, _ => model

/-- `Provider.generate_completion` minus the `await`: the external capability
`_generate_completion_impl` is the parameter `impl` (already applied to the
prompt).  Returns the call outcome together with the provider's updated
mutable state. -/
def generateCompletion (p : Provider) (now : Nat)
    (impl : Option String → Except String Completion)
    (model : Option String) : Except PError Completion × Provider :=
  if !p.enabled then (.error (.disabled p.name), p)
  else
    let c := p.checkRateLimit now
    if c.1 then (.error (.rateLimited p.name), c.2)
    else
      let p₂ := c.2.updateRequestStats now
      match impl (p.effectiveModel model) with
      | .ok r => (.ok r, p₂)
      | .error e =>
          (.error (.wrapped p.name e), { p₂ with error_count := p₂.error_count + 1 })

end Provider

/-- Model-defaulting prologue of `OpenAIProvider._generate_completion_impl`:
`model = self.models[0] if self.models else "gpt-4o"` when `model` is falsy. -/
def OpenAIProvider.resolveModel (models : List String) (model : Option String) : String :=
  match model with
  | some m => m
  | none => match models with | m :: _ => m | [] => "gpt-4o"

/-- Model-defaulting prologue of `AnthropicProvider._generate_completion_impl`:
fallback constant `"claude-3-opus-20240229"`. -/
def AnthropicProvider.resolveModel (models : List String) (model : Option String) : String :=
  match model with
  | some m => m
  | none => match models with | m :: _ => m | [] => "claude-3-opus-20240229"

/-- Python's `sorted(available_providers, key=lambda p: p.priority)[0]`:
`sorted` is stable, so the head of the sorted list is the first element of
the input attaining the minimal priority.  Folding left and replacing the
current best only on a strictly smaller priority computes exactly that
element. -/
def selectFirstMin : Provider → List Provider → Provider
  | best, [] => best
  | best, q :: rest => selectFirstMin (if q.priority < best.priority then q else best) rest

/-- `ProviderManager` state.  `self.providers` is a Python dict keyed by
provider name; dicts preserve insertion order, so it is modelled as the
list of providers in registration order (keys are unique in the dict,
which theorems assume as a `Nodup` hypothesis on the names where needed). -/
structure ProviderManager where
  providers : List Provider
  default_provider : String
  fallback_strategy : String
deriving Repr

namespace ProviderManager

/-- `ProviderManager.get_provider` (dict lookup by name). -/
def getProvider (M : ProviderManager) (name : String) : Option Provider :=
  M.providers.find? (fun p => p.name = name)

/-- `ProviderManager.get_all_providers`: all **enabled** providers. -/
def getAllProviders (M : ProviderManager) : List Provider :=
  M.providers.filter (fun p => p.enabled)

/-- The `available_providers` local of `ProviderManager._get_next_provider`:
enabled providers whose name is not in `exclude`. -/
def availableProviders (M : ProviderManager) (exclude : List String) : List Provider :=
  M.getAllProviders.filter (fun p => !(exclude.contains p.name))

/-- `ProviderManager._get_next_provider`.  `rnd` is the oracle index used
by `random.choice` for the "random" strategy. -/
def getNextProvider (M : ProviderManager) (exclude : List String) (rnd : Nat) :
    Option Provider :=
  match M.availableProviders exclude with
  | [] => none
  | p :: rest =>
    if M.fallback_strategy = "priority" then some (selectFirstMin p rest)
    else if M.fallback_strategy = "round-robin" then some p
    else if M.fallback_strategy = "random" then (p :: rest).get? (rnd % (rest.length + 1))
    else some (selectFirstMin p rest)

/-- One provider status entry of `ProviderManager.get_provider_status`. -/
structure ProviderStatus where
  name : String
  enabled : Bool
  priority : Int
  models : List String
  error_count : Nat
  request_count : Nat
deriving Repr, DecidableEq

/-- `ProviderManager.get_provider_status`: one entry per **registered**
provider, enabled or not. -/
def getProviderStatus (M : ProviderManager) : List ProviderStatus :=
  M.providers.map (fun p =>
    ⟨p.name, p.enabled, p.priority, p.models, p.error_count, p.request_count⟩)

end ProviderManager

/-- Writing back the in-place mutation of one provider object: the Python
code mutates the `Provider` stored in the manager's dict, so the list entry
with the attempted provider's name is replaced by its updated state. -/
def setProvider (ps : List Provider) (p : Provider) : List Provider :=
  ps.map (fun q => if q.name = p.name then p else q)

/-- Outcome of one `ProviderManager.generate_completion` call.
`tried` is the `tried_providers` list at the end of the call; `attempts`
additionally records the successful provider (every provider on which
`Provider.generate_completion` was invoked, in order); `errors` is the
trace of caught `ProviderError`s (the code keeps only `last_error =
errors.getLast?`); `providers` is the final provider state. -/
structure CallOutcome where
  result : Except PError Completion
  tried : List String
  attempts : List String
  errors : List PError
  providers : List Provider
deriving Repr

namespace ProviderManager

/-- The `while retries < max_retries` fallback loop of
`ProviderManager.generate_completion`.  `fuel` is `max_retries - retries`;
`iter` feeds the `random.choice` oracle. -/
def fallbackLoop (M : ProviderManager) (rnd : Nat → Nat)
    (impls : String → Option String → Except String Completion)
    (now : Nat) (model : Option String) :
    Nat → Nat → List String → List PError → List Provider → CallOutcome
  | 0, _iter, tried, errors, ps =>
      ⟨.error (.allFailed tried.length ((errors.getLast?).map PError.message)),
        tried, tried, errors, ps⟩
  | fuel + 1, iter, tried, errors, ps =>
      match ({ M with providers := ps } : ProviderManager).getNextProvider tried (rnd iter) with
      | none =>
          ⟨.error (.allFailed tried.length ((errors.getLast?).map PError.message)),
            tried, tried, errors, ps⟩
      | some p =>
          let r := p.generateCompletion now (impls p.name) model
          let ps' := setProvider ps r.2
          match r.1 with
          | .ok v => ⟨.ok v, tried, tried ++ [p.name], errors, ps'⟩
          | .error e =>
              M.fallbackLoop rnd impls now model fuel (iter + 1)
                (tried ++ [p.name]) (errors ++ [e]) ps'

/-- `if not provider_name: provider_name = self.default_provider`
("" is falsy in Python, hence treated as absent). -/
def resolveName (M : ProviderManager) (providerName : Option String) : String :=
  match providerName with
  | some n => if n = "" then M.default_provider else n
  | none => M.default_provider

/-- The primary candidate of `ProviderManager.generate_completion`:
`if provider_name and provider_name in self.providers:` — `none` when the
resolved name is falsy or not registered. -/
def primaryProvider (M : ProviderManager) (providerName : Option String) :
    Option Provider :=
  if M.resolveName providerName = "" then none
  else M.getProvider (M.resolveName providerName)

/-- `ProviderManager.generate_completion`.  `impls name` is the external
completion capability of the provider registered under `name` (already
applied to the prompt); `rnd` is the oracle for the "random" strategy. -/
def generateCompletion (M : ProviderManager) (rnd : Nat → Nat)
    (impls : String → Option String → Except String Completion)
    (now : Nat) (providerName : Option String) (model : Option String)
    (maxRetries : Nat := 3) : CallOutcome :=
  match M.primaryProvider providerName with
  | some p =>
      -- `if provider.enabled:` guard on the primary attempt
      if p.enabled then
        let r := p.generateCompletion now (impls p.name) model
        let ps' := setProvider M.providers r.2
        match r.1 with
        | .ok v => ⟨.ok v, [], [M.resolveName providerName], [], ps'⟩
        | .error e =>
            M.fallbackLoop rnd impls now model maxRetries 0
              [M.resolveName providerName] [e] ps'
      else M.fallbackLoop rnd impls now model maxRetries 0 [] [] M.providers
  | none => M.fallbackLoop rnd impls now model maxRetries 0 [] [] M.providers

end ProviderManager

/-! ## Task queue (`src/services/task_queue.py`) -/

/-- `TaskStatus` enum. -/
inductive TaskStatus where
  | pending | running | completed | failed | cancelled
deriving Repr, DecidableEq

/-- Opaque payload returned by a task handler (the queue never inspects it). -/
abbrev TValue := String

namespace TaskQueue

/-- One `Task` (named `TaskQueue.Task`; the bare name `Task` is taken by
the Lean core library).  `datetime.now()` values are `Nat` timestamps supplied at
each operation; the free-form `parameters` dict is never read or written by
the queue logic and is omitted.  `progress` is a Python float manipulated
only through `max`/`min`/constants, so `ℚ` is an exact model. -/
structure Task where
  task_id : String
  task_type : String
  content : String
  status : TaskStatus := .pending
  progress : ℚ := 0
  result : Option TValue := none
  error : Option String := none
  created_at : Nat := 0
  updated_at : Nat := 0
  completed_at : Option Nat := none
deriving Repr, DecidableEq

namespace Task

/-- `Task.update_progress`. -/
def updateProgress (t : Task) (progress : ℚ) (now : Nat) : Task :=
  { t with progress := max 0 (min 1 progress), updated_at := now }

/-- `Task.complete`. -/
def complete (t : Task) (result : TValue) (now : Nat) : Task :=
  { t with status := .completed, progress := 1, result := some result,
           updated_at := now, completed_at := some now }

/-- `Task.fail` (note: does not touch `progress`). -/
def fail (t : Task) (error : String) (now : Nat) : Task :=
  { t with status := .failed, error := some error,
           updated_at := now, completed_at := some now }

/-- `Task.cancel` — unconditional: the source has no guard on the current
status. -/
def cancel (t : Task) (now : Nat) : Task :=
  { t with status := .cancelled, updated_at := now, completed_at := some now }

end Task

/-- `TaskQueue.process_task`.  `handlers` is the `self.handlers` dict
(`task_type → handler`); a handler is an async function of the Task that
either returns a value or raises (`Except.error` carries `str(e)`).
`now₁` is the `datetime.now()` of the pending→running transition, `now₂`
that of the terminal transition.  The Python `try/except Exception` means
the function always returns a Task — handler failures are stored on the
task, never propagated. -/
def processTask (handlers : String → Option (Task → Except String TValue))
    (now₁ now₂ : Nat) (task : Task) : Task :=
  if task.status ≠ .pending then task
  else
    match handlers task.task_type with
    | none => task.fail ("No handler registered for task type: " ++ task.task_type) now₂
    | some handler =>
        let running : Task := { task with status := .running, updated_at := now₁ }
        match handler running with
        | .ok r => running.complete r now₂
        | .error e => running.fail e now₂

end TaskQueue

/-! ## Concrete fixtures (used by counterexamples and witnesses) -/

/-- An external capability that always fails with cause `"boom"`. -/
def implFail : String → Option String → Except String Completion :=
  fun _ _ => .error "boom"

/-- The same failing capability for a single provider (prompt and name
already applied). -/
def implFail1 : Option String → Except String Completion :=
  fun _ => .error "boom"

/-- Degenerate oracle for the "random" strategy. -/
def rnd0 : Nat → Nat := fun _ => 0

/-- An enabled provider with no models and no rate limit. -/
def demoProvider (n : String) (prio : Int) : Provider :=
  { name := n, models := [], priority := prio, enabled := true, rate_limit := none }

/-- Four enabled providers, priorities 1..4, default `"p1"`, strategy priority. -/
def demoM4 : ProviderManager :=
  ⟨[demoProvider "p1" 1, demoProvider "p2" 2, demoProvider "p3" 3, demoProvider "p4" 4],
    "p1", "priority"⟩

/-- One externally observable mutating operation on a provider's counters:
a bare rate-limit check (`_check_rate_limit`), or a full completion attempt
(`generate_completion`) whose external capability returns `outcome`. -/
inductive POp where
  | check (now : Nat)
  | attempt (now : Nat) (outcome : Except String Completion) (model : Option String)

/-- Apply one operation to a provider's state. -/
def POp.apply (p : Provider) : POp → Provider
  | .check now => (p.checkRateLimit now).2
  | .attempt now outcome model => (p.generateCompletion now (fun _ => outcome) model).2

/-- Apply a sequence of operations left to right. -/
def POp.applyAll (p : Provider) (ops : List POp) : Provider :=
  ops.foldl POp.apply p

/-- A disabled provider. -/
def demoDis : Provider :=
  { name := "pd", models := [], priority := 0, enabled := false, rate_limit := none }

/-- A manager whose default provider is disabled. -/
def demoMdis : ProviderManager :=
  ⟨[demoProvider "p1" 1, demoDis], "pd", "priority"⟩

/-- Three providers with a priority tie between the last two. -/
def demoTie : ProviderManager :=
  ⟨[demoProvider "t1" 2, demoProvider "t2" 1, demoProvider "t3" 1], "t1", "priority"⟩

/-- A fresh pending task of type `"echo"` with content `"hi"`. -/
def demoTask : TaskQueue.Task := { task_id := "id1", task_type := "echo", content := "hi" }

/-- A handler table: `"echo"` returns the task content, `"boom"` raises. -/
def demoHandlers : String → Option (TaskQueue.Task → Except String TValue) :=
  fun ty =>
    if ty = "echo" then some (fun t => .ok t.content)
    else if ty = "boom" then some (fun _ => .error "kaput")
    else none

/-! ## Preservation lemmas -/

/-- `_check_rate_limit` only writes `request_count` and `last_request_time`. -/
lemma Provider.checkRateLimit_fields (p : Provider) (now : Nat) :
    ((p.checkRateLimit now).2).name = p.name ∧
    ((p.checkRateLimit now).2).enabled = p.enabled ∧
    ((p.checkRateLimit now).2).models = p.models ∧
    ((p.checkRateLimit now).2).priority = p.priority ∧
    ((p.checkRateLimit now).2).error_count = p.error_count ∧
    ((p.checkRateLimit now).2).rate_limit = p.rate_limit := by
  unfold Provider.checkRateLimit
  rcases h : p.rate_limit with _ | limit
  · simp [h]
  · dsimp only
    repeat' split
    all_goals simp [h]

/-- `generate_completion` only writes the three counters. -/
lemma Provider.generateCompletion_fields (p : Provider) (now : Nat)
    (impl : Option String → Except String Completion) (model : Option String) :
    ((p.generateCompletion now impl model).2).name = p.name ∧
    ((p.generateCompletion now impl model).2).enabled = p.enabled ∧
    ((p.generateCompletion now impl model).2).models = p.models ∧
    ((p.generateCompletion now impl model).2).priority = p.priority ∧
    ((p.generateCompletion now impl model).2).rate_limit = p.rate_limit := by
  have hc := p.checkRateLimit_fields now
  unfold Provider.generateCompletion
  dsimp only
  repeat' split
  all_goals simp [Provider.updateRequestStats, hc.1, hc.2.1, hc.2.2.1, hc.2.2.2.1,
    hc.2.2.2.2.2]

/-! ## C4 — rate-limit check semantics -/

/-- **C4** (amended).  For every provider whose configured `rate_limit` is
**positive**, the rate-limit check returns not-limited and resets the count
to 0 (anchoring the window at `now`) whenever more than 60 seconds have
elapsed since the window anchor, and otherwise reports limited iff
`request_count ≥ limit` while leaving the state unchanged; a provider with
no configured limit is never limited (and never mutated by the check).  In
particular, with `rate_limit = 1`, a second attempt within 60 seconds of a
recorded request is limited, and a check after the 60-second window is not
limited and resets the count.  (The original claim, quantified over *every*
configured limit, fails at `rate_limit = 0`, which Python's `if not
self.rate_limit` treats as "no limit" — see the counterexample.) -/
theorem c4_rate_limit_check (p : Provider) (now : Nat) :
    (p.rate_limit = none → p.checkRateLimit now = (false, p)) ∧
    (∀ limit, p.rate_limit = some limit → 0 < limit →
      (60 < now - p.last_request_time →
        p.checkRateLimit now
          = (false, { p with request_count := 0, last_request_time := now })) ∧
      (now - p.last_request_time ≤ 60 →
        ((p.checkRateLimit now).1 = true ↔ limit ≤ p.request_count) ∧
        (p.checkRateLimit now).2 = p)) ∧
    (p.rate_limit = some 1 → ∀ t u,
      (u - t ≤ 60 → ((p.updateRequestStats t).checkRateLimit u).1 = true) ∧
      (60 < u - t →
        (p.updateRequestStats t).checkRateLimit u
          = (false, { p with request_count := 0, last_request_time := u }))) := by
  refine ⟨fun h => by simp [Provider.checkRateLimit, h], ?_, ?_⟩
  · intro limit hl hpos
    constructor
    · intro h60
      simp [Provider.checkRateLimit, hl, Nat.pos_iff_ne_zero.mp hpos, h60]
    · intro h60
      have hn : ¬ 60 < now - p.last_request_time := Nat.not_lt.mpr h60
      have hz : limit ≠ 0 := Nat.pos_iff_ne_zero.mp hpos
      constructor
      · simp only [Provider.checkRateLimit, hl, hz, hn, ge_iff_le, if_false, ite_false]
        by_cases hc : limit ≤ p.request_count <;> simp [hc]
      · simp only [Provider.checkRateLimit, hl, hz, hn, ge_iff_le, if_false, ite_false]
        by_cases hc : limit ≤ p.request_count <;> simp [hc]
  · intro hl t u
    constructor
    · intro h60
      have hn : ¬ 60 < u - t := Nat.not_lt.mpr h60
      simp [Provider.checkRateLimit, Provider.updateRequestStats, hl, hn]
    · intro h60
      simp [Provider.checkRateLimit, Provider.updateRequestStats, hl, h60]

/-- Witness for C4 at a concrete provider with `rate_limit = 1`:
a request recorded at time 5 makes a check at time 65 limited, and a check
at time 70 resets the window. -/
theorem c4_rate_limit_check_witness :
    (((Provider.mk "w" [] 1 true (some 1) 0 0 0).updateRequestStats 5).checkRateLimit 65).1
        = true ∧
    ((Provider.mk "w" [] 1 true (some 1) 0 0 0).updateRequestStats 5).checkRateLimit 70
        = (false, Provider.mk "w" [] 1 true (some 1) 70 0 0) :=
  ⟨((c4_rate_limit_check (Provider.mk "w" [] 1 true (some 1) 0 0 0) 0).2.2 rfl 5 65).1
      (by decide),
    ((c4_rate_limit_check (Provider.mk "w" [] 1 true (some 1) 0 0 0) 0).2.2 rfl 5 70).2
      (by decide)⟩

/-- Counterexample to C4 as stated: the provider below has a *configured*
`rate_limit = some 0` and, within the window, `request_count ≥ limit`
(`0 ≥ 0`), yet the check reports not-limited — Python's `if not
self.rate_limit` treats a configured limit of `0` as "no limit", so
"limited iff count ≥ limit" fails for it. -/
theorem c4_counterexample :
    (Provider.mk "z" [] 1 true (some 0) 0 0 0).rate_limit = some 0 ∧
    10 - (Provider.mk "z" [] 1 true (some 0) 0 0 0).last_request_time ≤ 60 ∧
    (Provider.mk "z" [] 1 true (some 0) 0 0 0).request_count ≥ 0 ∧
    ¬ (((Provider.mk "z" [] 1 true (some 0) 0 0 0).checkRateLimit 10).1 = true ↔
        (Provider.mk "z" [] 1 true (some 0) 0 0 0).request_count ≥ 0) := by
  decide

/-! ## C10 — the check mutates state past the window -/

/-- **C10** (amended).  For every provider with a **positive** configured
rate limit, a rate-limit check performed when more than 60 seconds have
elapsed since `last_request_time` mutates the provider even though no
request is recorded: it sets `request_count` to 0 and `last_request_time`
to the current time; and every recorded request also sets
`last_request_time` to now (incrementing the count), so the 60-second
window is anchored at the most recent request or check.  (The original
claim fails at a configured `rate_limit = 0`, which the Python truthiness
test short-circuits before the reset — see the counterexample.) -/
theorem c10_check_mutates_window (p : Provider) (now limit : Nat)
    (hl : p.rate_limit = some limit) (hpos : 0 < limit)
    (h60 : 60 < now - p.last_request_time) :
    p.checkRateLimit now
      = (false, { p with request_count := 0, last_request_time := now }) ∧
    (∀ t, (p.updateRequestStats t).last_request_time = t ∧
      (p.updateRequestStats t).request_count = p.request_count + 1) := by
  refine ⟨?_, fun t => ⟨rfl, rfl⟩⟩
  simp [Provider.checkRateLimit, hl, Nat.pos_iff_ne_zero.mp hpos, h60]

/-- Witness for C10: a provider with limit 1, last request at time 0,
checked at time 100. -/
theorem c10_check_mutates_window_witness :
    (Provider.mk "w" [] 1 true (some 1) 0 3 0).checkRateLimit 100
      = (false, Provider.mk "w" [] 1 true (some 1) 100 0 0) :=
  (c10_check_mutates_window (Provider.mk "w" [] 1 true (some 1) 0 3 0) 100 1
    rfl (by decide) (by decide)).1

/-- Counterexample to C10 as stated: a provider with a *configured*
`rate_limit = some 0` and `100 - last_request_time > 60`, whose check
leaves the state completely unchanged (`request_count` stays 5,
`last_request_time` stays 0) instead of performing the claimed reset. -/
theorem c10_counterexample :
    (Provider.mk "z" [] 1 true (some 0) 0 5 0).rate_limit = some 0 ∧
    60 < 100 - (Provider.mk "z" [] 1 true (some 0) 0 5 0).last_request_time ∧
    (Provider.mk "z" [] 1 true (some 0) 0 5 0).checkRateLimit 100
      = (false, Provider.mk "z" [] 1 true (some 0) 0 5 0) := by
  decide

/-! ## C2 — Provider.generate_completion short-circuits and error path -/

/-- **C2**.  `Provider.generate_completion` fails immediately with the
disabled error when `enabled == false`; otherwise fails with the
rate-limited error when the rate limiter reports limited; otherwise, when
`model` is omitted, the model passed to the external capability defaults to
the first entry of the provider's model list (and when the list is empty
the base class passes the omitted model through, which the
provider-specific `_generate_completion_impl` resolves to its fallback
constant — `"gpt-4o"` for OpenAI, `"claude-3-opus-20240229"` for
Anthropic); when the external completion capability fails, `error_count`
is incremented by exactly 1 and the call fails with the wrapping error
carrying the provider name and the underlying cause. -/
theorem c2_provider_generate (p : Provider) (now : Nat)
    (impl : Option String → Except String Completion) (model : Option String) :
    (p.enabled = false →
      p.generateCompletion now impl model = (.error (.disabled p.name), p)) ∧
    (p.enabled = true → (p.checkRateLimit now).1 = true →
      p.generateCompletion now impl model
        = (.error (.rateLimited p.name), (p.checkRateLimit now).2)) ∧
    (∀ m ms, p.models = m :: ms →
      p.effectiveModel none = some m ∧
      OpenAIProvider.resolveModel p.models (p.effectiveModel none) = m) ∧
    (p.models = [] →
      p.effectiveModel none = none ∧
      OpenAIProvider.resolveModel p.models (p.effectiveModel none) = "gpt-4o" ∧
      AnthropicProvider.resolveModel p.models (p.effectiveModel none)
        = "claude-3-opus-20240229") ∧
    (∀ c, p.enabled = true → (p.checkRateLimit now).1 = false →
      impl (p.effectiveModel model) = .error c →
      (p.generateCompletion now impl model).1 = .error (.wrapped p.name c) ∧
      (p.generateCompletion now impl model).2.error_count = p.error_count + 1) := by
  refine ⟨?_, ?_, ?_, ?_, ?_⟩
  · intro h; simp [Provider.generateCompletion, h]
  · intro h hlim; simp [Provider.generateCompletion, h, hlim]
  · intro m ms hm
    simp [Provider.effectiveModel, OpenAIProvider.resolveModel, hm]
  · intro hm
    simp [Provider.effectiveModel, OpenAIProvider.resolveModel,
      AnthropicProvider.resolveModel, hm]
  · intro c h hlim himpl
    have hc := p.checkRateLimit_fields now
    simp [Provider.generateCompletion, h, hlim, himpl, Provider.updateRequestStats,
      hc.2.2.2.2.1]

/-- Witness for C2: each branch of the contract exercised at a concrete
provider (disabled / rate-limited / model defaulting with a two-model list
/ empty model list / failing external capability). -/
theorem c2_provider_generate_witness :
    (Provider.mk "d" [] 1 false none 0 0 0).generateCompletion 0 implFail1 none
        = (.error (.disabled "d"), Provider.mk "d" [] 1 false none 0 0 0) ∧
    (Provider.mk "r" [] 1 true (some 1) 0 1 0).generateCompletion 10 implFail1 none
        = (.error (.rateLimited "r"),
            ((Provider.mk "r" [] 1 true (some 1) 0 1 0).checkRateLimit 10).2) ∧
    (Provider.mk "e" ["m1", "m2"] 1 true none 0 0 0).effectiveModel none = some "m1" ∧
    OpenAIProvider.resolveModel (Provider.mk "d" [] 1 false none 0 0 0).models
        ((Provider.mk "d" [] 1 false none 0 0 0).effectiveModel none) = "gpt-4o" ∧
    ((Provider.mk "e" ["m1", "m2"] 1 true none 0 0 0).generateCompletion 0 implFail1
        none).1 = .error (.wrapped "e" "boom") ∧
    ((Provider.mk "e" ["m1", "m2"] 1 true none 0 0 0).generateCompletion 0 implFail1
        none).2.error_count = 0 + 1 :=
  ⟨(c2_provider_generate (Provider.mk "d" [] 1 false none 0 0 0) 0 implFail1 none).1 rfl,
    (c2_provider_generate (Provider.mk "r" [] 1 true (some 1) 0 1 0) 10 implFail1
        none).2.1 rfl (by decide),
    ((c2_provider_generate (Provider.mk "e" ["m1", "m2"] 1 true none 0 0 0) 0 implFail1
        none).2.2.1 "m1" ["m2"] rfl).1,
    ((c2_provider_generate (Provider.mk "d" [] 1 false none 0 0 0) 0 implFail1
        none).2.2.2.1 rfl).2.1,
    ((c2_provider_generate (Provider.mk "e" ["m1", "m2"] 1 true none 0 0 0) 0 implFail1
        none).2.2.2.2 "boom" rfl (by decide) rfl).1,
    ((c2_provider_generate (Provider.mk "e" ["m1", "m2"] 1 true none 0 0 0) 0 implFail1
        none).2.2.2.2 "boom" rfl (by decide) rfl).2⟩

/-! ## C6 — TaskQueue.process_task -/

/-- **C6**.  `process_task` is a no-op unless the task is pending; a pending
task whose type has no registered handler transitions directly to failed
with the error naming the missing handler's task type; on handler success
the task transitions to completed with the returned result and progress
forced to 1.0; on handler failure of any kind the task transitions to
failed with the stringified cause.  The failure is recorded on the task and
`processTask` returns it as an ordinary value — the model of the
`try/except Exception` in the source is a **total** function into `Task`,
so no handler failure can propagate to the worker loop. -/
theorem c6_process_task
    (handlers : String → Option (TaskQueue.Task → Except String TValue))
    (now₁ now₂ : Nat) (t : TaskQueue.Task) :
    (t.status ≠ .pending → TaskQueue.processTask handlers now₁ now₂ t = t) ∧
    (t.status = .pending → handlers t.task_type = none →
      TaskQueue.processTask handlers now₁ now₂ t
        = t.fail ("No handler registered for task type: " ++ t.task_type) now₂ ∧
      (TaskQueue.processTask handlers now₁ now₂ t).status = .failed) ∧
    (∀ f r, t.status = .pending → handlers t.task_type = some f →
      f { t with status := .running, updated_at := now₁ } = .ok r →
      (TaskQueue.processTask handlers now₁ now₂ t).status = .completed ∧
      (TaskQueue.processTask handlers now₁ now₂ t).result = some r ∧
      (TaskQueue.processTask handlers now₁ now₂ t).progress = 1) ∧
    (∀ f e, t.status = .pending → handlers t.task_type = some f →
      f { t with status := .running, updated_at := now₁ } = .error e →
      (TaskQueue.processTask handlers now₁ now₂ t).status = .failed ∧
      (TaskQueue.processTask handlers now₁ now₂ t).error = some e) := by
  refine ⟨?_, ?_, ?_, ?_⟩
  · intro h; simp [TaskQueue.processTask, h]
  · intro h hh
    simp [TaskQueue.processTask, h, hh, TaskQueue.Task.fail]
  · intro f r h hh hf
    simp [TaskQueue.processTask, h, hh, hf, TaskQueue.Task.complete]
  · intro f e h hh hf
    simp [TaskQueue.processTask, h, hh, hf, TaskQueue.Task.fail]

/-- Witness for C6: the four branches at concrete tasks and the concrete
handler table (`"echo"` succeeds with the content, `"boom"` raises
`"kaput"`, `"unregistered"` has no handler, a running task is untouched). -/
theorem c6_process_task_witness :
    TaskQueue.processTask demoHandlers 1 2 { demoTask with status := .running }
        = { demoTask with status := .running } ∧
    (TaskQueue.processTask demoHandlers 1 2
        { demoTask with task_type := "unregistered" }).status = .failed ∧
    (TaskQueue.processTask demoHandlers 1 2 demoTask).status = .completed ∧
    (TaskQueue.processTask demoHandlers 1 2 demoTask).result = some "hi" ∧
    (TaskQueue.processTask demoHandlers 1 2 demoTask).progress = 1 ∧
    (TaskQueue.processTask demoHandlers 1 2 { demoTask with task_type := "boom" }).status
        = .failed ∧
    (TaskQueue.processTask demoHandlers 1 2 { demoTask with task_type := "boom" }).error
        = some "kaput" :=
  have hsucc := (c6_process_task demoHandlers 1 2 demoTask).2.2.1
    (fun t => .ok t.content) "hi" rfl rfl rfl
  have hfail := (c6_process_task demoHandlers 1 2 { demoTask with task_type := "boom" }).2.2.2
    (fun _ => .error "kaput") "kaput" rfl rfl rfl
  ⟨(c6_process_task demoHandlers 1 2 { demoTask with status := .running }).1 (by decide),
    ((c6_process_task demoHandlers 1 2 { demoTask with task_type := "unregistered" }).2.1
      rfl rfl).2,
    hsucc.1, hsucc.2.1, hsucc.2.2, hfail.1, hfail.2⟩

/-! ## C7 — terminal transitions and completed_at -/

/-- **C7** (amended).  `completed_at` is set (to the transition time) on
every transition into completed, failed or cancelled; the queue's own
processing (`process_task`) never changes a non-pending task — in
particular a task in a terminal state never transitions again through the
worker — and it takes a pending task to completed or failed, setting
`completed_at`; `cancel` invoked on a pending or running task yields
cancelled.  However the `Task.complete`/`Task.fail`/`Task.cancel` methods
themselves are **unguarded**: explicit cancellation may be invoked from
*any* state — including terminal ones — re-entering `cancelled` and setting
`completed_at` again (see the counterexample), so "completed_at is set
exactly once" and "terminal states never transition" hold only for the
queue's own operations, not for arbitrary external method calls. -/
theorem c7_terminal_transitions
    (handlers : String → Option (TaskQueue.Task → Except String TValue))
    (now₁ now₂ now : Nat) (t : TaskQueue.Task) :
    (t.status ≠ .pending → TaskQueue.processTask handlers now₁ now₂ t = t) ∧
    (t.status = .pending →
      ((TaskQueue.processTask handlers now₁ now₂ t).status = .completed ∨
        (TaskQueue.processTask handlers now₁ now₂ t).status = .failed) ∧
      (TaskQueue.processTask handlers now₁ now₂ t).completed_at = some now₂) ∧
    (∀ r, (t.complete r now).completed_at = some now) ∧
    (∀ e, (t.fail e now).completed_at = some now) ∧
    (t.cancel now).completed_at = some now ∧
    ((t.status = .pending ∨ t.status = .running) → (t.cancel now).status = .cancelled) := by
  refine ⟨?_, ?_, fun r => rfl, fun e => rfl, rfl, fun _ => rfl⟩
  · intro h; simp [TaskQueue.processTask, h]
  · intro h
    unfold TaskQueue.processTask
    simp only [h]
    rcases hh : handlers t.task_type with _ | f
    · simp [TaskQueue.Task.fail]
    · rcases hf : f { t with status := .running, updated_at := now₁ } with r | e
        <;> simp [TaskQueue.Task.fail, TaskQueue.Task.complete, hf]

/-- Witness for C7 at concrete inputs: a running task is untouched by
`process_task`, a pending task is taken to a terminal state with
`completed_at` set, and cancelling a running task cancels it. -/
theorem c7_terminal_transitions_witness :
    TaskQueue.processTask demoHandlers 1 2 { demoTask with status := .running }
        = { demoTask with status := .running } ∧
    ((TaskQueue.processTask demoHandlers 1 2 demoTask).status = .completed ∨
      (TaskQueue.processTask demoHandlers 1 2 demoTask).status = .failed) ∧
    (TaskQueue.processTask demoHandlers 1 2 demoTask).completed_at = some 2 ∧
    (({ demoTask with status := .running } : TaskQueue.Task).cancel 7).status
        = .cancelled :=
  have h := (c7_terminal_transitions demoHandlers 1 2 7 demoTask).2.1 rfl
  ⟨(c7_terminal_transitions demoHandlers 1 2 7
      { demoTask with status := .running }).1 (by decide),
    h.1, h.2,
    (c7_terminal_transitions demoHandlers 1 2 7
      { demoTask with status := .running }).2.2.2.2.2 (Or.inr rfl)⟩

/-- Counterexample to C7 as stated: `Task.cancel` has no status guard, so a
task that has already completed (terminal, `completed_at = some 5`)
transitions *again* to cancelled, and `completed_at` is overwritten
(`some 9`) — refuting "cancelled is reachable only from pending or
running", "terminal states never transition", and "completed_at is set
exactly once" for direct method calls. -/
theorem c7_counterexample :
    (demoTask.complete "r" 5).status = .completed ∧
    (demoTask.complete "r" 5).completed_at = some 5 ∧
    ((demoTask.complete "r" 5).cancel 9).status = .cancelled ∧
    ((demoTask.complete "r" 5).cancel 9).completed_at = some 9 := by
  decide

/-! ## C5 — request_count is a rolling, not cumulative, counter -/

/-- `_check_rate_limit` with a Python-falsy `rate_limit` (None or 0) leaves
the provider untouched. -/
lemma Provider.checkRateLimit_falsy (p : Provider) (now : Nat)
    (hf : p.rate_limit.getD 0 = 0) : p.checkRateLimit now = (false, p) := by
  unfold Provider.checkRateLimit
  rcases h : p.rate_limit with _ | limit
  · rfl
  · rw [h] at hf; simp at hf; simp [hf]

/-- A single operation on a provider with a Python-falsy rate limit never
decreases `request_count` (and never touches `rate_limit`). -/
lemma POp.apply_monotone (p : Provider) (op : POp) (hf : p.rate_limit.getD 0 = 0) :
    (POp.apply p op).rate_limit = p.rate_limit ∧
    p.request_count ≤ (POp.apply p op).request_count := by
  cases op with
  | check now => simp [POp.apply, p.checkRateLimit_falsy now hf]
  | attempt now outcome model =>
    unfold POp.apply Provider.generateCompletion
    rcases he : p.enabled with _ | _
    · simp
    · simp only [he, Bool.not_true, Bool.false_eq_true, if_false,
        p.checkRateLimit_falsy now hf]
      rcases outcome with v | e <;>
        simp [Provider.updateRequestStats, Nat.le_succ]

/-- Over any operation sequence, a provider with a Python-falsy rate limit
has a nondecreasing `request_count`. -/
lemma POp.applyAll_monotone (ops : List POp) (p : Provider)
    (hf : p.rate_limit.getD 0 = 0) :
    p.request_count ≤ (POp.applyAll p ops).request_count := by
  induction ops generalizing p with
  | nil => exact le_refl _
  | cons op ops ih =>
    have h := POp.apply_monotone p op hf
    calc p.request_count ≤ (POp.apply p op).request_count := h.2
      _ ≤ (POp.applyAll (POp.apply p op) ops).request_count :=
          ih (POp.apply p op) (by rw [h.1]; exact hf)

/-- **C5** (amended).  `request_count` is the rolling rate-window counter,
not a cumulative one: for a provider whose `rate_limit` is unset (or 0,
which Python truthiness treats as unset) it never decreases over any
sequence of completion attempts and rate-limit checks; but for a provider
with a truthy `rate_limit`, the very same field is reset to 0 by the
rate-limit check once the 60-second window has expired — also inside a
completion attempt — so it can decrease (see the counterexample).
`get_provider_status` reports this rolling value for every registered
provider. -/
theorem c5_request_count_rolling (M : ProviderManager) (p : Provider) (ops : List POp)
    (hf : p.rate_limit.getD 0 = 0) (hp : p ∈ M.providers) :
    p.request_count ≤ (POp.applyAll p ops).request_count ∧
    (⟨p.name, p.enabled, p.priority, p.models, p.error_count, p.request_count⟩ :
      ProviderManager.ProviderStatus) ∈ M.getProviderStatus :=
  ⟨POp.applyAll_monotone ops p hf,
    List.mem_map_of_mem _ hp⟩

/-- Witness for C5 at a concrete no-limit provider inside `demoM4`:
two attempts and a late check never decrease the counter. -/
theorem c5_request_count_rolling_witness :
    (demoProvider "p1" 1).request_count
        ≤ (POp.applyAll (demoProvider "p1" 1)
            [.attempt 0 (.ok "r") none, .check 100, .attempt 100 (.ok "r") none]
          ).request_count ∧
    (⟨"p1", true, 1, [], 0, 0⟩ : ProviderManager.ProviderStatus)
        ∈ demoM4.getProviderStatus :=
  c5_request_count_rolling demoM4 (demoProvider "p1" 1)
    [.attempt 0 (.ok "r") none, .check 100, .attempt 100 (.ok "r") none]
    rfl (by decide)

/-- Counterexample to C5 as stated: a provider with `rate_limit = 10` and
two completion attempts at time 0 has `request_count = 2`; extending the
very same operation sequence with one more (successful) attempt at time
100 yields `request_count = 1` — the in-attempt rate check saw the expired
window and reset the counter, so `request_count` **decreased** and
`get_provider_status` would report 1, not the cumulative 3. -/
theorem c5_counterexample :
    (POp.applyAll (Provider.mk "c" [] 1 true (some 10) 0 0 0)
        [.attempt 0 (.ok "r") none, .attempt 0 (.ok "r") none]).request_count = 2 ∧
    (POp.applyAll (Provider.mk "c" [] 1 true (some 10) 0 0 0)
        [.attempt 0 (.ok "r") none, .attempt 0 (.ok "r") none,
          .attempt 100 (.ok "r") none]).request_count = 1 := by
  decide

/-! ## C9 — "round-robin" degenerates to first-remaining -/

/-- **C9**.  With `fallback_strategy = "round-robin"`,
`_get_next_provider` returns, for every exclusion list, the head of the
enabled-and-non-excluded providers in registration order.  The result is a
pure function of the registered providers and the exclusion list — the
manager holds no rotation cursor, so every call with the same arguments
picks the same "first remaining" candidate. -/
theorem c9_round_robin_first_remaining (M : ProviderManager) (exclude : List String)
    (rnd : Nat) (h : M.fallback_strategy = "round-robin") :
    M.getNextProvider exclude rnd
      = ((M.providers.filter (fun p => p.enabled)).filter
          (fun p => !(exclude.contains p.name))).head? := by
  have havail : M.availableProviders exclude
      = (M.providers.filter (fun p => p.enabled)).filter
          (fun p => !(exclude.contains p.name)) := rfl
  rw [← havail]
  unfold ProviderManager.getNextProvider
  rcases hl : M.availableProviders exclude with _ | ⟨p, rest⟩
  · rfl
  · rw [h]
    simp

/-- Witness for C9: in `demoM4` switched to round-robin, with `"p1"`
excluded, the selected provider is `"p2"` — the first remaining in
registration order, not a rotated one. -/
theorem c9_round_robin_first_remaining_witness :
    ({ demoM4 with fallback_strategy := "round-robin" }
        : ProviderManager).getNextProvider ["p1"] 0 = some (demoProvider "p2" 2) :=
  (c9_round_robin_first_remaining
      { demoM4 with fallback_strategy := "round-robin" } ["p1"] 0 rfl).trans (by decide)

/-! ## C3 — priority strategy: stable minimum -/

/-- `selectFirstMin p l` attains the minimal priority of `p :: l`. -/
lemma selectFirstMin_le (p : Provider) (l : List Provider) :
    (selectFirstMin p l).priority ≤ p.priority ∧
    ∀ q ∈ l, (selectFirstMin p l).priority ≤ q.priority := by
  induction l generalizing p with
  | nil => exact ⟨le_refl _, by simp⟩
  | cons q t ih =>
    rw [selectFirstMin]
    by_cases hq : q.priority < p.priority
    · rw [if_pos hq]
      refine ⟨le_of_lt (lt_of_le_of_lt (ih q).1 hq), ?_⟩
      intro x hx
      rcases List.mem_cons.mp hx with hx | hx
      · rw [hx]; exact (ih q).1
      · exact (ih q).2 x hx
    · rw [if_neg hq]
      refine ⟨(ih p).1, ?_⟩
      intro x hx
      rcases List.mem_cons.mp hx with hx | hx
      · rw [hx]; exact le_trans (ih p).1 (not_lt.mp hq)
      · exact (ih p).2 x hx

/-- The selected provider is the **first** element of the candidate list
attaining the minimum: everything strictly before it has a strictly larger
priority (Python's `sorted` is stable). -/
lemma selectFirstMin_split (p : Provider) (l : List Provider) :
    ∃ l₁ l₂, p :: l = l₁ ++ selectFirstMin p l :: l₂ ∧
      ∀ q ∈ l₁, (selectFirstMin p l).priority < q.priority := by
  induction l generalizing p with
  | nil => exact ⟨[], [], rfl, by simp⟩
  | cons q t ih =>
    rw [selectFirstMin]
    by_cases hq : q.priority < p.priority
    · rw [if_pos hq]
      obtain ⟨l₁, l₂, heq, hgt⟩ := ih q
      refine ⟨p :: l₁, l₂, ?_, ?_⟩
      · rw [List.cons_append, ← heq]
      · intro x hx
        rcases List.mem_cons.mp hx with hx | hx
        · rw [hx]; exact lt_of_le_of_lt (selectFirstMin_le q t).1 hq
        · exact hgt x hx
    · rw [if_neg hq]
      obtain ⟨l₁, l₂, heq, hgt⟩ := ih p
      cases l₁ with
      | nil =>
        have hsel : selectFirstMin p t = p := by
          have h2 : p = selectFirstMin p t := by
            simpa using congrArg List.head? heq
          exact h2.symm
        refine ⟨[], q :: t, by rw [hsel]; rfl, by simp⟩
      | cons a l₁ =>
        rw [List.cons_append] at heq
        injection heq with ha ht
        refine ⟨p :: q :: l₁, l₂, ?_, ?_⟩
        · rw [List.cons_append, List.cons_append, ← ht]
        · intro x hx
          have hp : (selectFirstMin p t).priority < p.priority := by
            simpa [← ha] using hgt a (List.mem_cons_self a l₁)
          rcases List.mem_cons.mp hx with hx | hx
          · rw [hx]; exact hp
          rcases List.mem_cons.mp hx with hx | hx
          · rw [hx]; exact lt_of_lt_of_le hp (not_lt.mp hq)
          · exact hgt x (List.mem_cons_of_mem a hx)

/-- **C3**.  With `fallback_strategy = "priority"`, every call to
`_get_next_provider` selects, among providers that are enabled and not in
the exclusion ("tried") set, one of minimal priority value; everything
preceding it in registration order among the candidates has strictly
larger priority — i.e. ties resolve by original registration order — and
the selected provider is enabled, registered and never one already in the
tried set. -/
theorem c3_priority_selection (M : ProviderManager) (tried : List String)
    (rnd : Nat) (r : Provider) (hstrat : M.fallback_strategy = "priority")
    (hr : M.getNextProvider tried rnd = some r) :
    r.enabled = true ∧ tried.contains r.name = false ∧ r ∈ M.providers ∧
    (∀ q ∈ M.availableProviders tried, r.priority ≤ q.priority) ∧
    ∃ l₁ l₂, M.availableProviders tried = l₁ ++ r :: l₂ ∧
      ∀ q ∈ l₁, r.priority < q.priority := by
  unfold ProviderManager.getNextProvider at hr
  rcases hl : M.availableProviders tried with _ | ⟨p, rest⟩
  · rw [hl] at hr; exact absurd hr (by simp)
  · rw [hl, hstrat] at hr
    have hr2 : selectFirstMin p rest = r := by simpa using hr
    subst hr2
    obtain ⟨l₁, l₂, heq, hgt⟩ := selectFirstMin_split p rest
    have hle := selectFirstMin_le p rest
    have hmem : selectFirstMin p rest ∈ M.availableProviders tried := by
      rw [hl, heq]; simp
    have hmem2 := hmem
    unfold ProviderManager.availableProviders ProviderManager.getAllProviders at hmem2
    rw [List.mem_filter] at hmem2
    obtain ⟨hmem3, hnotex⟩ := hmem2
    rw [List.mem_filter] at hmem3
    refine ⟨hmem3.2, by simpa using hnotex, hmem3.1, ?_, ?_⟩
    · intro q hq
      rcases List.mem_cons.mp hq with hq | hq
      · rw [hq]; exact hle.1
      · exact hle.2 q hq
    · exact ⟨l₁, l₂, heq, hgt⟩

/-- Witness for C3 in `demoTie` (priorities 2, 1, 1): the provider selected
with nothing excluded is `"t2"` — minimal priority, and the *first* of the
two tied candidates in registration order. -/
theorem c3_priority_selection_witness :
    demoTie.getNextProvider [] 0 = some (demoProvider "t2" 1) ∧
    (demoProvider "t2" 1).enabled = true ∧
    ∀ q ∈ demoTie.availableProviders [], (demoProvider "t2" 1).priority ≤ q.priority :=
  have hr : demoTie.getNextProvider [] 0 = some (demoProvider "t2" 1) := by decide
  have h := c3_priority_selection demoTie [] 0 (demoProvider "t2" 1) rfl hr
  ⟨hr, h.1, h.2.2.2.1⟩

/-! ## Loop invariant machinery for the fallback protocol (C1, C8) -/

/-- The stable minimum is an element of the candidate list. -/
lemma selectFirstMin_mem (p : Provider) (l : List Provider) :
    selectFirstMin p l ∈ p :: l := by
  obtain ⟨l₁, l₂, heq, _⟩ := selectFirstMin_split p l
  rw [heq]
  simp

/-- Whatever the strategy, `_get_next_provider` only ever returns a member
of the available (enabled, non-excluded) candidate list. -/
lemma ProviderManager.getNextProvider_mem (M : ProviderManager) (exclude : List String)
    (rnd : Nat) (p : Provider) (h : M.getNextProvider exclude rnd = some p) :
    p ∈ M.availableProviders exclude := by
  unfold ProviderManager.getNextProvider at h
  rcases hl : M.availableProviders exclude with _ | ⟨q, rest⟩
  · rw [hl] at h; exact absurd h (by simp)
  · rw [hl] at h
    simp only at h
    split at h
    · injection h with h2; rw [← h2]; exact selectFirstMin_mem q rest
    · split at h
      · injection h with h2; rw [← h2]; exact List.mem_cons_self q rest
      · split at h
        · exact List.get?_mem h
        · injection h with h2; rw [← h2]; exact selectFirstMin_mem q rest

/-- Membership in `availableProviders` unpacked. -/
lemma ProviderManager.mem_availableProviders (M : ProviderManager)
    (exclude : List String) (p : Provider) (h : p ∈ M.availableProviders exclude) :
    p ∈ M.providers ∧ p.enabled = true ∧ exclude.contains p.name = false := by
  unfold ProviderManager.availableProviders ProviderManager.getAllProviders at h
  rw [List.mem_filter] at h
  obtain ⟨h1, h2⟩ := h
  rw [List.mem_filter] at h1
  exact ⟨h1.1, h1.2, by simpa using h2⟩

/-- Writing back an updated provider whose `name`/`enabled` agree with the
entry it replaces preserves the (name, enabled) shape of the list (the
names being `Nodup` rules out a second entry with the same name). -/
lemma setProvider_shape (ps : List Provider) (q p' : Provider)
    (hq : q ∈ ps) (hname : p'.name = q.name) (hen : p'.enabled = q.enabled)
    (hnd : (ps.map Provider.name).Nodup) :
    (setProvider ps p').map (fun x => (x.name, x.enabled))
      = ps.map (fun x => (x.name, x.enabled)) := by
  unfold setProvider
  rw [List.map_map]
  apply List.map_congr_left
  intro e he
  by_cases hcase : e.name = p'.name
  · have heqq : e = q := by
      apply List.inj_on_of_nodup_map hnd he hq
      rw [hcase, hname]
    simp only [Function.comp_apply, if_pos hcase]
    rw [heqq, hname, hen]
  · simp [Function.comp, hcase]

/-- Shape equality transports a member's (name, enabled) pair. -/
lemma shape_exists {ps qs : List Provider}
    (h : ps.map (fun x => (x.name, x.enabled)) = qs.map (fun x => (x.name, x.enabled)))
    {p : Provider} (hp : p ∈ ps) :
    ∃ q ∈ qs, q.name = p.name ∧ q.enabled = p.enabled := by
  have hm : (p.name, p.enabled) ∈ qs.map (fun x => (x.name, x.enabled)) := by
    rw [← h]
    exact List.mem_map_of_mem _ hp
  obtain ⟨q, hq, he⟩ := List.mem_map.mp hm
  refine ⟨q, hq, ?_, ?_⟩
  · exact congrArg Prod.fst he
  · exact congrArg Prod.snd he

/-- Shape equality restricted to the name column. -/
lemma shape_names {ps qs : List Provider}
    (h : ps.map (fun x => (x.name, x.enabled)) = qs.map (fun x => (x.name, x.enabled))) :
    ps.map Provider.name = qs.map Provider.name := by
  have h2 := congrArg (fun l => l.map Prod.fst) h
  simpa [List.map_map, Function.comp] using h2

/-- Invariant of the `while retries < max_retries` fallback loop: every
attempted provider name belongs to a distinct enabled registered provider,
the caught-error trace stays in step with `tried_providers`, the number of
tried providers grows by at most the remaining fuel, and an error result
is exactly the `AllProvidersFailed` aggregate of the final `tried` count
and the last caught error's message (in which case no attempt succeeded). -/
lemma ProviderManager.fallbackLoop_spec (M : ProviderManager) (rnd : Nat → Nat)
    (impls : String → Option String → Except String Completion)
    (now : Nat) (model : Option String)
    (hnd : (M.providers.map Provider.name).Nodup) :
    ∀ (fuel iter : Nat) (tried : List String) (errors : List PError) (ps : List Provider),
      ps.map (fun x => (x.name, x.enabled))
          = M.providers.map (fun x => (x.name, x.enabled)) →
      (∀ n ∈ tried, ∃ q ∈ M.providers, q.name = n ∧ q.enabled = true) →
      tried.Nodup →
      errors.length = tried.length →
      (∀ n ∈ (M.fallbackLoop rnd impls now model fuel iter tried errors ps).attempts,
          ∃ q ∈ M.providers, q.name = n ∧ q.enabled = true) ∧
      (M.fallbackLoop rnd impls now model fuel iter tried errors ps).tried.Nodup ∧
      (M.fallbackLoop rnd impls now model fuel iter tried errors ps).errors.length
          = (M.fallbackLoop rnd impls now model fuel iter tried errors ps).tried.length ∧
      (M.fallbackLoop rnd impls now model fuel iter tried errors ps).tried.length
          ≤ tried.length + fuel ∧
      (∀ e, (M.fallbackLoop rnd impls now model fuel iter tried errors ps).result
            = .error e →
        e = .allFailed
              (M.fallbackLoop rnd impls now model fuel iter tried errors ps).tried.length
              (((M.fallbackLoop rnd impls now model fuel iter tried errors ps).errors.getLast?).map
                PError.message) ∧
        (M.fallbackLoop rnd impls now model fuel iter tried errors ps).attempts
            = (M.fallbackLoop rnd impls now model fuel iter tried errors ps).tried) := by
  intro fuel
  induction fuel with
  | zero =>
    intro iter tried errors ps hshape htried hnodup herr
    simp only [ProviderManager.fallbackLoop]
    refine ⟨htried, hnodup, herr, by omega, ?_⟩
    intro e he
    simp only [Except.error.injEq] at he
    exact ⟨he.symm, trivial⟩
  | succ fuel ih =>
    intro iter tried errors ps hshape htried hnodup herr
    rcases hnext : ({ M with providers := ps } : ProviderManager).getNextProvider
        tried (rnd iter) with _ | p
    · simp only [ProviderManager.fallbackLoop, hnext]
      refine ⟨htried, hnodup, herr, by omega, ?_⟩
      intro e he
      simp only [Except.error.injEq] at he
      exact ⟨he.symm, trivial⟩
    · obtain ⟨hp_ps, hp_en, hp_ex⟩ :=
        ProviderManager.mem_availableProviders _ tried p
          (ProviderManager.getNextProvider_mem _ tried (rnd iter) p hnext)
      have hfields := p.generateCompletion_fields now (impls p.name) model
      have hndps : (ps.map Provider.name).Nodup := by
        rw [shape_names hshape]; exact hnd
      have hshape' :
          (setProvider ps (p.generateCompletion now (impls p.name) model).2).map
              (fun x => (x.name, x.enabled))
            = M.providers.map (fun x => (x.name, x.enabled)) := by
        rw [setProvider_shape ps p _ hp_ps hfields.1 hfields.2.1 hndps]
        exact hshape
      obtain ⟨q0, hq0, hq0name, hq0en⟩ := shape_exists hshape hp_ps
      have hpname_prop : ∃ q ∈ M.providers, q.name = p.name ∧ q.enabled = true :=
        ⟨q0, hq0, hq0name, by rw [hq0en, hp_en]⟩
      have htried' : ∀ n ∈ tried ++ [p.name],
          ∃ q ∈ M.providers, q.name = n ∧ q.enabled = true := by
        intro n hn
        rcases List.mem_append.mp hn with hn | hn
        · exact htried n hn
        · simp only [List.mem_singleton] at hn
          rw [hn]; exact hpname_prop
      have hpnotin : p.name ∉ tried := by simpa using hp_ex
      have hnodup' : (tried ++ [p.name]).Nodup := by
        simp [List.nodup_append, hnodup, hpnotin]
      rcases hres : (p.generateCompletion now (impls p.name) model).1 with e₀ | v
      case error =>
        simp only [ProviderManager.fallbackLoop, hnext, hres]
        have herr' : (errors ++ [e₀]).length = (tried ++ [p.name]).length := by
          simp [herr]
        have hrec := ih (iter + 1) (tried ++ [p.name]) (errors ++ [e₀])
          (setProvider ps (p.generateCompletion now (impls p.name) model).2)
          hshape' htried' hnodup' herr'
        refine ⟨hrec.1, hrec.2.1, hrec.2.2.1, ?_, hrec.2.2.2.2⟩
        have hb := hrec.2.2.2.1
        simp only [List.length_append, List.length_singleton] at hb
        omega
      case ok =>
        simp only [ProviderManager.fallbackLoop, hnext, hres]
        refine ⟨htried', hnodup, herr, by omega, ?_⟩
        intro e he
        exact absurd he (by simp)

/-- Whole-call version of the loop invariant: across the primary attempt
and the fallback loop, every attempted provider name belongs to a distinct
enabled registered provider, at most `max_retries + 1` providers are tried
(primary + at most `max_retries` fallback iterations), and an error result
is exactly the `AllProvidersFailed` aggregate. -/
lemma ProviderManager.generateCompletion_spec (M : ProviderManager) (rnd : Nat → Nat)
    (impls : String → Option String → Except String Completion)
    (now : Nat) (providerName model : Option String) (maxRetries : Nat)
    (hnd : (M.providers.map Provider.name).Nodup) :
    (∀ n ∈ (M.generateCompletion rnd impls now providerName model maxRetries).attempts,
        ∃ q ∈ M.providers, q.name = n ∧ q.enabled = true) ∧
    (M.generateCompletion rnd impls now providerName model maxRetries).tried.Nodup ∧
    (M.generateCompletion rnd impls now providerName model maxRetries).errors.length
        = (M.generateCompletion rnd impls now providerName model maxRetries).tried.length ∧
    (M.generateCompletion rnd impls now providerName model maxRetries).tried.length
        ≤ maxRetries + 1 ∧
    (∀ e, (M.generateCompletion rnd impls now providerName model maxRetries).result
          = .error e →
      e = .allFailed
            (M.generateCompletion rnd impls now providerName model maxRetries).tried.length
            (((M.generateCompletion rnd impls now providerName model
                maxRetries).errors.getLast?).map PError.message) ∧
      (M.generateCompletion rnd impls now providerName model maxRetries).attempts
          = (M.generateCompletion rnd impls now providerName model maxRetries).tried) := by
  rcases hprim : M.primaryProvider providerName with _ | p
  · simp only [ProviderManager.generateCompletion, hprim]
    have h := M.fallbackLoop_spec rnd impls now model hnd maxRetries 0 [] []
      M.providers rfl (by simp) (by simp) rfl
    refine ⟨h.1, h.2.1, h.2.2.1, ?_, h.2.2.2.2⟩
    have hb := h.2.2.2.1
    simp only [List.length_nil] at hb
    omega
  · have hp_mem : p ∈ M.providers := by
      unfold ProviderManager.primaryProvider at hprim
      rcases hnm : decide (M.resolveName providerName = "") with _ | _
      · rw [if_neg (of_decide_eq_false hnm)] at hprim
        exact List.mem_of_find?_eq_some hprim
      · rw [if_pos (of_decide_eq_true hnm)] at hprim
        exact absurd hprim (by simp)
    have hp_name : p.name = M.resolveName providerName := by
      unfold ProviderManager.primaryProvider at hprim
      rcases hnm : decide (M.resolveName providerName = "") with _ | _
      · rw [if_neg (of_decide_eq_false hnm)] at hprim
        have := List.find?_some hprim
        simpa using this
      · rw [if_pos (of_decide_eq_true hnm)] at hprim
        exact absurd hprim (by simp)
    rcases hen : p.enabled with _ | _
    · simp only [ProviderManager.generateCompletion, hprim, hen, Bool.false_eq_true,
        if_false]
      have h := M.fallbackLoop_spec rnd impls now model hnd maxRetries 0 [] []
        M.providers rfl (by simp) (by simp) rfl
      refine ⟨h.1, h.2.1, h.2.2.1, ?_, h.2.2.2.2⟩
      have hb := h.2.2.2.1
      simp only [List.length_nil] at hb
      omega
    · have hfields := p.generateCompletion_fields now (impls p.name) model
      have hshape' :
          (setProvider M.providers (p.generateCompletion now (impls p.name) model).2).map
              (fun x => (x.name, x.enabled))
            = M.providers.map (fun x => (x.name, x.enabled)) :=
        setProvider_shape M.providers p _ hp_mem hfields.1 hfields.2.1 hnd
      have htried0 : ∀ n ∈ [M.resolveName providerName],
          ∃ q ∈ M.providers, q.name = n ∧ q.enabled = true := by
        intro n hn
        simp only [List.mem_singleton] at hn
        subst hn
        exact ⟨p, hp_mem, hp_name, hen⟩
      rcases hres : (p.generateCompletion now (impls p.name) model).1 with e₀ | v
      case error =>
        simp only [ProviderManager.generateCompletion, hprim, hen, if_true, hres]
        have h := M.fallbackLoop_spec rnd impls now model hnd maxRetries 0
          [M.resolveName providerName] [e₀]
          (setProvider M.providers (p.generateCompletion now (impls p.name) model).2)
          hshape' htried0 (by simp) rfl
        refine ⟨h.1, h.2.1, h.2.2.1, ?_, h.2.2.2.2⟩
        have hb := h.2.2.2.1
        simp only [List.length_singleton] at hb
        omega
      case ok =>
        simp only [ProviderManager.generateCompletion, hprim, hen, if_true, hres]
        refine ⟨?_, by simp, by simp, by simp, ?_⟩
        · intro n hn
          simp only [List.mem_singleton] at hn
          subst hn
          exact ⟨p, hp_mem, hp_name, hen⟩
        · intro e he
          exact absurd he (by simp)

/-! ## C1 — AllProvidersFailed aggregation and attempt bound -/

/-- **C1** (amended).  When every attempted provider fails (equivalently:
whenever the call fails at all), `ProviderManager.generate_completion`
fails with the `AllProvidersFailed` error aggregating the count of attempts
and the last underlying error message; the attempt count equals the number
of distinct enabled providers tried — the tried names are pairwise distinct
and each belongs to an enabled registered provider — and is bounded by
**`max_retries + 1`**: the primary attempt is recorded in `tried_providers`
but does not consume a retry, so with an eligible failing primary the loop
can try `max_retries` further providers (the original bound `max_retries`
is refuted by the counterexample). -/
theorem c1_all_providers_failed (M : ProviderManager) (rnd : Nat → Nat)
    (impls : String → Option String → Except String Completion)
    (now : Nat) (providerName model : Option String) (maxRetries : Nat)
    (hnd : (M.providers.map Provider.name).Nodup) (e : PError)
    (hres : (M.generateCompletion rnd impls now providerName model maxRetries).result
        = .error e) :
    e = .allFailed
          (M.generateCompletion rnd impls now providerName model maxRetries).tried.length
          (((M.generateCompletion rnd impls now providerName model
              maxRetries).errors.getLast?).map PError.message) ∧
    (M.generateCompletion rnd impls now providerName model maxRetries).attempts
        = (M.generateCompletion rnd impls now providerName model maxRetries).tried ∧
    (M.generateCompletion rnd impls now providerName model maxRetries).tried.Nodup ∧
    (∀ n ∈ (M.generateCompletion rnd impls now providerName model maxRetries).tried,
        ∃ q ∈ M.providers, q.name = n ∧ q.enabled = true) ∧
    (M.generateCompletion rnd impls now providerName model maxRetries).errors.length
        = (M.generateCompletion rnd impls now providerName model maxRetries).tried.length ∧
    (M.generateCompletion rnd impls now providerName model maxRetries).tried.length
        ≤ maxRetries + 1 := by
  have h := M.generateCompletion_spec rnd impls now providerName model maxRetries hnd
  have he := h.2.2.2.2 e hres
  refine ⟨he.1, he.2, h.2.1, ?_, h.2.2.1, h.2.2.2.1⟩
  intro n hn
  apply h.1
  rw [he.2]
  exact hn

/-- Witness for C1: in `demoM4` (four enabled providers, all failing,
default `"p1"`, `max_retries = 3`) the call fails with
`AllProvidersFailed` after 4 distinct attempts, within the
`max_retries + 1` bound. -/
theorem c1_all_providers_failed_witness :
    (demoM4.generateCompletion rnd0 implFail 0 none none 3).result
        = .error (.allFailed 4 (some "Provider p4 error: boom")) ∧
    PError.allFailed 4 (some "Provider p4 error: boom")
      = .allFailed
          (demoM4.generateCompletion rnd0 implFail 0 none none 3).tried.length
          (((demoM4.generateCompletion rnd0 implFail 0 none none
              3).errors.getLast?).map PError.message) ∧
    (demoM4.generateCompletion rnd0 implFail 0 none none 3).tried.length ≤ 3 + 1 :=
  have hres : (demoM4.generateCompletion rnd0 implFail 0 none none 3).result
      = .error (.allFailed 4 (some "Provider p4 error: boom")) := rfl
  have h := c1_all_providers_failed demoM4 rnd0 implFail 0 none none 3 (by decide)
    (.allFailed 4 (some "Provider p4 error: boom")) hres
  ⟨hres, h.1, h.2.2.2.2.2⟩

/-- Counterexample to C1 as stated: with default `"p1"` eligible and
failing, `max_retries = 3` and four enabled failing providers, the call
tries 4 distinct providers (`p1` as primary plus 3 fallback retries) and
raises `AllProvidersFailed` reporting 4 attempts — the attempt count is
**not** bounded by `max_retries = 3`. -/
theorem c1_counterexample :
    (demoM4.generateCompletion rnd0 implFail 0 none none 3).tried
        = ["p1", "p2", "p3", "p4"] ∧
    (demoM4.generateCompletion rnd0 implFail 0 none none 3).result
        = .error (.allFailed 4 (some "Provider p4 error: boom")) ∧
    ¬ (demoM4.generateCompletion rnd0 implFail 0 none none 3).tried.length ≤ 3 :=
  ⟨by decide, rfl, by decide⟩

/-! ## C8 — disabled providers are never selected -/

/-- **C8**.  A registered provider with `enabled == false` never appears in
`get_all_providers()`, always appears in `get_provider_status()` (with its
flag reported `false`), and is never attempted — neither as the primary
candidate nor in any fallback iteration — by any
`ProviderManager.generate_completion` call. -/
theorem c8_disabled_provider (M : ProviderManager) (p : Provider)
    (hnd : (M.providers.map Provider.name).Nodup)
    (hp : p ∈ M.providers) (hdis : p.enabled = false) :
    p ∉ M.getAllProviders ∧
    (⟨p.name, false, p.priority, p.models, p.error_count, p.request_count⟩ :
      ProviderManager.ProviderStatus) ∈ M.getProviderStatus ∧
    ∀ rnd impls now providerName model maxRetries,
      p.name ∉ (M.generateCompletion rnd impls now providerName model
        maxRetries).attempts := by
  refine ⟨?_, ?_, ?_⟩
  · intro hmem
    unfold ProviderManager.getAllProviders at hmem
    rw [List.mem_filter, hdis] at hmem
    exact absurd hmem.2 (by simp)
  · have h : (⟨p.name, p.enabled, p.priority, p.models, p.error_count,
        p.request_count⟩ : ProviderManager.ProviderStatus) ∈ M.getProviderStatus :=
      List.mem_map_of_mem _ hp
    rwa [hdis] at h
  · intro rnd impls now providerName model maxRetries hmem
    obtain ⟨q, hq, hqname, hqen⟩ :=
      (M.generateCompletion_spec rnd impls now providerName model maxRetries hnd).1
        p.name hmem
    have hqp : q = p := List.inj_on_of_nodup_map hnd hq hp hqname
    rw [hqp, hdis] at hqen
    exact absurd hqen (by simp)

/-- Witness for C8: in `demoMdis` the default provider `"pd"` is disabled;
it is absent from `get_all_providers`, present in `get_provider_status`,
and a failing call (which falls back to `"p1"` and then exhausts) never
attempts it. -/
theorem c8_disabled_provider_witness :
    demoDis ∉ demoMdis.getAllProviders ∧
    (⟨"pd", false, 0, [], 0, 0⟩ : ProviderManager.ProviderStatus)
        ∈ demoMdis.getProviderStatus ∧
    "pd" ∉ (demoMdis.generateCompletion rnd0 implFail 0 none none 3).attempts :=
  have h := c8_disabled_provider demoMdis demoDis (by decide) (by decide) rfl
  ⟨h.1, h.2.1, h.2.2 rnd0 implFail 0 none none 3⟩
